import Mathlib

/-!
Verification of the `samsungctl` Samsung-TV remote-control library.

This file shallowly embeds the parts of the repository that the spec's
claims are about:

* the legacy binary framing codec (`RemoteLegacy._serialize_string`,
  `RemoteLegacy.control`, `RemoteLegacy._read_response` in
  `src/samsungctl/remote_legacy.py`), including Python's standard
  `base64.b64encode`/decode pair, over byte lists (`List Nat`, each
  element `< 256`);
* the legacy connection lifecycle (`RemoteLegacy.open` / `loop` /
  `close`) and the WebSocket base lifecycle (`websocket_base.py`),
  as explicit state passing and a small-step transition relation;
* the UPnP capability facade (`src/samsungctl/upnp/__init__.py`):
  dynamic attribute resolution (`UPNPTV.__getattr__`), the
  capability-probing accessors (`brightness`, `caption_state`,
  `byte_position_info`, ...), the channel setter and the `Channel`
  record, and the WebSocket power probe.

Machine integers are `Nat` with explicit bounds; fallible Python code
returns `Except`/`Option`, with raised exceptions as error values.
-/

namespace Samsungctl

/-! ## Python exception values

Each constructor stands for one exception class that the embedded code
can raise.  `unhandledResponse` carries the raw response bytes, as
`exceptions.UnhandledResponse(response)` does. -/

inductive PyErr where
  | attributeError
  | valueError
  | typeError
  | indexError
  | runtimeError
  | accessDenied
  | connectionClosed
  | unhandledResponse (raw : List Nat)
  deriving DecidableEq, Repr

/-! ## Base64 (Python `base64.b64encode` / `b64decode`)

Standard RFC 4648 base64 over byte lists.  `b64chr` maps a 6-bit value
to its alphabet byte; `b64ord` is its left inverse.  61 is the ASCII
code of the padding character. -/

def b64chr (n : Nat) : Nat :=
  if n < 26 then 65 + n
  else if n < 52 then 97 + (n - 26)
  else if n < 62 then 48 + (n - 52)
  else if n = 62 then 43
  else 47

def b64ord (c : Nat) : Nat :=
  if 65 ≤ c ∧ c ≤ 90 then c - 65
  else if 97 ≤ c ∧ c ≤ 122 then c - 97 + 26
  else if 48 ≤ c ∧ c ≤ 57 then c - 48 + 52
  else if c = 43 then 62
  else 63

def b64encode : List Nat → List Nat
  | [] => []
  | [a] => [b64chr (a / 4), b64chr (a % 4 * 16), 61, 61]
  | [a, b] => [b64chr (a / 4), b64chr (a % 4 * 16 + b / 16), b64chr (b % 16 * 4), 61]
  | a :: b :: c :: rest =>
      b64chr (a / 4) :: b64chr (a % 4 * 16 + b / 16) ::
      b64chr (b % 16 * 4 + c / 64) :: b64chr (c % 64) :: b64encode rest

def b64decode : List Nat → List Nat
  | e0 :: e1 :: e2 :: e3 :: rest =>
      if e2 = 61 then [b64ord e0 * 4 + b64ord e1 / 16]
      else if e3 = 61 then
        [b64ord e0 * 4 + b64ord e1 / 16, b64ord e1 % 16 * 16 + b64ord e2 / 4]
      else
        (b64ord e0 * 4 + b64ord e1 / 16) ::
        (b64ord e1 % 16 * 16 + b64ord e2 / 4) ::
        (b64ord e2 % 4 * 64 + b64ord e3) :: b64decode rest
  | _ => []

/-! ## `RemoteLegacy._serialize_string`

```python
def _serialize_string(string, raw=False):
    if not raw:
        string = base64.b64encode(string)
    return bytes([len(string)]) + b"\x00" + string
```

`bytes([n])` raises `ValueError` for `n > 255`, so serialization
succeeds exactly when the (possibly base64-encoded) payload fits in the
single length byte. -/

def serialize_string (s : List Nat) (raw : Bool) : Option (List Nat) :=
  let payload := if raw then s else b64encode s
  if payload.length ≤ 255 then some (payload.length :: 0 :: payload) else none

/-! ## `RemoteLegacy.control` framing

```python
payload = b"\x00\x00\x00" + self._serialize_string(key)
packet = b"\x00\x00\x00" + self._serialize_string(payload, True)
```

`control_payload` is the inner key payload; `control_packet` is the full
wire frame sent to the TV. -/

def control_payload (key : List Nat) : Option (List Nat) := do
  let inner ← serialize_string key false
  pure (0 :: 0 :: 0 :: inner)

def control_packet (key : List Nat) : Option (List Nat) := do
  let payload ← control_payload key
  let outer ← serialize_string payload true
  pure (0 :: 0 :: 0 :: outer)

/-! ## `RemoteLegacy._read_response`

The reader consumes a byte stream: a 3-byte header whose bytes 1–2 are
the big-endian length of the TV-name field, the TV name, a 2-byte
big-endian response length, then the response.  The response is
dispatched on exact byte patterns.  Python's
`int(codecs.encode(raw, 'hex'), 16)` on a 2-byte slice is the
big-endian value `beVal`.

The `\x0a` (waiting-for-authorization) branch recursively reads the
next frame; the embedding carries fuel for that recursion (the Python
recursion is unbounded until the socket yields a decisive frame).

The result is the dispatch outcome together with the pairing flag
(`self.config.paired`) after the call and the unconsumed rest of the
stream.  Raised exceptions appear as outcomes: `denied` and `cancelled`
are `AccessDenied`, `closed` is `ConnectionClosed`, `unhandled` is
`UnhandledResponse(response)`. -/

/-- Inverse of the inner key serialization, used to state the
encode/decode round trip: a control payload is three zero bytes, a
length byte, a zero byte, and the base64 text of the key; recovering
the key is checking that shape and base64-decoding. -/
def deserialize_key (resp : List Nat) : Option (List Nat) :=
  match resp with
  | 0 :: 0 :: 0 :: n :: 0 :: b64 =>
      if b64.length = n then Option.some (b64decode b64) else Option.none
  | _ => Option.none

def beVal (bs : List Nat) : Nat := bs.foldl (fun a b => a * 256 + b) 0

def be2 (n : Nat) : List Nat := [n / 256, n % 256]

inductive ReadOutcome where
  | granted
  | denied
  | cancelled
  | accepted
  | closed
  | unhandled (raw : List Nat)
  deriving DecidableEq, Repr

def read_response (paired : Bool) (fuel : Nat) (s : List Nat) :
    Option (ReadOutcome × Bool × List Nat) :=
  match fuel with
  | 0 => none
  | fuel + 1 =>
    let header := s.take 3
    let s1 := s.drop 3
    let tvNameLen := beVal (header.drop 1)
    let s2 := s1.drop tvNameLen
    let respLen := beVal (s2.take 2)
    let s3 := s2.drop 2
    let response := s3.take respLen
    let rest := s3.drop respLen
    if response.length = 0 then some (.closed, paired, rest)
    else if response = [0x64, 0x00, 0x01, 0x00] then some (.granted, true, rest)
    else if response = [0x64, 0x00, 0x00, 0x00] then some (.denied, paired, rest)
    else if response.take 1 = [0x0a] then read_response paired fuel rest
    else if response.take 1 = [0x65] then some (.cancelled, paired, rest)
    else if response = [0x00, 0x00, 0x00, 0x00] then some (.accepted, paired, rest)
    else some (.unhandled response, paired, rest)

/-- A well-formed inbound frame as the TV sends it: one reserved byte,
2-byte big-endian TV-name length, the TV name, 2-byte big-endian
response length, the response. -/
def mk_frame (name resp : List Nat) : List Nat :=
  0 :: (be2 name.length ++ name ++ be2 resp.length ++ resp)

/-! ## Python values

A small universe of the Python values the facade accessors pass
around: `none` is Python `None`, `tuple` a tuple, the rest scalars. -/

inductive PyVal where
  | none
  | int (n : Int)
  | str (s : String)
  | bool (b : Bool)
  | tuple (vs : List PyVal)

/-! ## Capability Directory

`UPNPTV` resolves `self.SomeService` through `__getattr__`; when the
service was not discovered the lookup raises `AttributeError`, and the
same happens when the service object lacks the requested action.  The
directory is modelled as a partial map from (service name, action name)
to the ordered result tuple of invoking that action.  `callAction`
is the combined `self.<service>.<action>(args)` step; the positional
arguments do not influence the modelled result, which the directory
fixes per action. -/

def CapabilityDirectory : Type := String → String → Option (List PyVal)

def emptyDirectory : CapabilityDirectory := fun _ _ => Option.none

def callAction (d : CapabilityDirectory) (svc act : String) :
    Except PyErr (List PyVal) :=
  match d svc act with
  | Option.some r => .ok r
  | Option.none => .error .attributeError

/-- `try: ... except AttributeError: pass` followed by returning
`default` (for accessors the fall-through `return` is Python's implicit
`return None`, or an explicit tuple of `None`s). -/
def tryAttr (x : Except PyErr PyVal) (default : PyVal) : Except PyErr PyVal :=
  match x with
  | .error .attributeError => .ok default
  | r => r

/-- Python tuple unpacking `a, b = r` / indexing helper: the `n`
leading elements, `ValueError` when the arity differs (CPython raises
`ValueError` on failed unpacking). -/
def unpack (r : List PyVal) (n : Nat) : Except PyErr (List PyVal) :=
  if r.length = n then .ok r else .error .valueError

/-- Python indexing `r[i]` with `IndexError` out of range. -/
def pyIndex (r : List PyVal) (i : Nat) : Except PyErr PyVal :=
  match r.get? i with
  | Option.some v => .ok v
  | Option.none => .error .indexError

/-! ## Facade accessors (`src/samsungctl/upnp/__init__.py`)

Each accessor is a function of the capability directory returning the
Python result or the exception that propagates to the caller. -/

/-- `UPNPTV.brightness` getter — note the source's
`except AttributeError: raise`, which re-raises instead of degrading:

```python
@property
def brightness(self):
    try:
        brightness = self.RenderingControl.GetBrightness(0)[0]
        return brightness
    except AttributeError:
        raise
```
-/
def brightness_get (d : CapabilityDirectory) : Except PyErr PyVal := do
  let r ← callAction d "RenderingControl" "GetBrightness"
  pyIndex r 0

/-- `UPNPTV.brightness` setter: invokes `SetBrightness`, swallows
`AttributeError`, returns `None`. -/
def brightness_set (d : CapabilityDirectory) (_v : PyVal) : Except PyErr PyVal :=
  tryAttr (do
    let _ ← callAction d "RenderingControl" "SetBrightness"
    pure PyVal.none) PyVal.none

/-- `UPNPTV.caption_state`: unpacks `X_GetCaptionState(0)` into two
values; on `AttributeError` falls through to `return None, None`. -/
def caption_state (d : CapabilityDirectory) : Except PyErr PyVal :=
  tryAttr (do
    let r ← callAction d "RenderingControl" "X_GetCaptionState"
    let r ← unpack r 2
    pure (PyVal.tuple r)) (PyVal.tuple [PyVal.none, PyVal.none])

/-- `UPNPTV.byte_position_info`: unpacks
`X_DLNA_GetBytePositionInfo(0)` into three values; degrades to
`(None, None, None)`. -/
def byte_position_info (d : CapabilityDirectory) : Except PyErr PyVal :=
  tryAttr (do
    let r ← callAction d "AVTransport" "X_DLNA_GetBytePositionInfo"
    let r ← unpack r 3
    pure (PyVal.tuple r)) (PyVal.tuple [PyVal.none, PyVal.none, PyVal.none])

/-- `UPNPTV.get_audio_selection`: unpacks `X_GetAudioSelection(0)` into
two values; degrades to `(None, None)`. -/
def get_audio_selection (d : CapabilityDirectory) : Except PyErr PyVal :=
  tryAttr (do
    let r ← callAction d "RenderingControl" "X_GetAudioSelection"
    let r ← unpack r 2
    pure (PyVal.tuple r)) (PyVal.tuple [PyVal.none, PyVal.none])

/-- `UPNPTV.set_audio_selection`: invokes `X_UpdateAudioSelection`;
degrades to `None` (implicit return). -/
def set_audio_selection (d : CapabilityDirectory) : Except PyErr PyVal :=
  tryAttr (do
    let _ ← callAction d "RenderingControl" "X_UpdateAudioSelection"
    pure PyVal.none) PyVal.none

/-- `UPNPTV.get_channel_mute`: `GetMute(0, channel)[0]`; degrades to
`None`. -/
def get_channel_mute (d : CapabilityDirectory) : Except PyErr PyVal :=
  tryAttr (do
    let r ← callAction d "RenderingControl" "GetMute"
    pyIndex r 0) PyVal.none

/-- `UPNPTV.set_channel_mute`: `SetMute(0, channel, desired)`; degrades
to `None`. -/
def set_channel_mute (d : CapabilityDirectory) : Except PyErr PyVal :=
  tryAttr (do
    let _ ← callAction d "RenderingControl" "SetMute"
    pure PyVal.none) PyVal.none

/-- `UPNPTV.get_channel_volume`: `GetVolume(0, channel)[0]`; degrades
to `None`. -/
def get_channel_volume (d : CapabilityDirectory) : Except PyErr PyVal :=
  tryAttr (do
    let r ← callAction d "RenderingControl" "GetVolume"
    pyIndex r 0) PyVal.none

/-- `UPNPTV.banner_information`: `GetBannerInformation()[1]`; degrades
to `None`. -/
def banner_information (d : CapabilityDirectory) : Except PyErr PyVal :=
  tryAttr (do
    let r ← callAction d "MainTVAgent2" "GetBannerInformation"
    pyIndex r 1) PyVal.none

/-- `UPNPTV.current_time`: `MainTVAgent2.GetCurrentTime()[1]`; degrades
to `None`. -/
def current_time (d : CapabilityDirectory) : Except PyErr PyVal :=
  tryAttr (do
    let r ← callAction d "MainTVAgent2" "GetCurrentTime"
    pyIndex r 1) PyVal.none

/-- `UPNPTV.contrast` getter: `GetContrast(0)[0]`; degrades to `None`. -/
def contrast_get (d : CapabilityDirectory) : Except PyErr PyVal :=
  tryAttr (do
    let r ← callAction d "RenderingControl" "GetContrast"
    pyIndex r 0) PyVal.none

/-- `UPNPTV.color_temperature` getter: `GetColorTemperature(0)[0]`;
degrades to `None`. -/
def color_temperature_get (d : CapabilityDirectory) : Except PyErr PyVal :=
  tryAttr (do
    let r ← callAction d "RenderingControl" "GetColorTemperature"
    pyIndex r 0) PyVal.none

/-- `UPNPTV.current_connection_info`: unpacks
`GetCurrentConnectionInfo(connection_id)` into seven values; degrades
to a 7-tuple of `None`s. -/
def current_connection_info (d : CapabilityDirectory) : Except PyErr PyVal :=
  tryAttr (do
    let r ← callAction d "ConnectionManager" "GetCurrentConnectionInfo"
    let r ← unpack r 7
    pure (PyVal.tuple r))
    (PyVal.tuple [PyVal.none, PyVal.none, PyVal.none, PyVal.none,
      PyVal.none, PyVal.none, PyVal.none])

/-- `UPNPTV.mute` getter: probes `MainTVAgent2.GetMuteStatus()[1]` and
on `AttributeError` falls back to `self.get_channel_mute('Master')`. -/
def mute_get (d : CapabilityDirectory) : Except PyErr PyVal :=
  match (do
      let r ← callAction d "MainTVAgent2" "GetMuteStatus"
      pyIndex r 1 : Except PyErr PyVal) with
  | .error .attributeError => get_channel_mute d
  | r => r

/-- `UPNPTV.volume` getter: probes `MainTVAgent2.GetVolume()[1]` and on
`AttributeError` falls back to `self.get_channel_volume('Master')`. -/
def volume_get (d : CapabilityDirectory) : Except PyErr PyVal :=
  match (do
      let r ← callAction d "MainTVAgent2" "GetVolume"
      pyIndex r 1 : Except PyErr PyVal) with
  | .error .attributeError => get_channel_volume d
  | r => r

/-! ## `Channel` records and the `channel` setter

`UPNPTV.channels` builds each entry as
`Channel((channel.find('MajorCh').text, channel.find('MinorCh').text), channel, self)`:
the natural key `_channel_num` holds the two XML **text** fields, i.e.
strings.  The `Channel` class (`upnp/__init__.py` lines 1727–1844)
defines **no** `__eq__`/`__ne__`, so for a `Channel` instance `chnl`,
`chnl == other` is Python's default identity comparison.  A tuple or
string argument is never the identical object, so the comparison is
`False` for every non-`Channel` argument. -/

structure PyChannel where
  major : String
  minor : String
  deriving DecidableEq, Repr

/-- Python `chnl == (major, minor)` for `chnl : Channel` and an
integer tuple: `Channel` has no `__eq__`, `tuple.__eq__` returns
`NotImplemented` for a `Channel`, and the final identity fallback is
`False` because a `Channel` object is never the same object as a
tuple. -/
def channelEqIntTuple (_c : PyChannel) (_mm : Int × Int) : Bool := false

/-- The `channel` setter body for a tuple argument, given the list the
`channels` property returned:

```python
try:
    for chnl in self.channels:
        if chnl == channel:
            chnl.activate()
            break
    else:
        raise ValueError('Channel not found ({0})'.format(channel))
except AttributeError:
    pass
```

Returns the entry `activate()` was called on, or the exception that
propagates (`ValueError` escapes: the `except` clause only catches
`AttributeError`). -/
def channel_set_tuple (channels : List PyChannel) (mm : Int × Int) :
    Except PyErr (Option PyChannel) :=
  match channels.find? (fun c => channelEqIntTuple c mm) with
  | Option.some c => .ok (Option.some c)
  | Option.none => .error .valueError

/-! ## `UPNPTV.__getattr__` (dynamic attribute resolution)

```python
def __getattr__(self, item):
    if item in self.__dict__:
        return self.__dict__[item]
    if item in self._devices:
        return self._devices[item]
    if item in self._services:
        return self._services[item]
    if item in self.__class__.__dict__:
        if hasattr(self.__class__.__dict__[item], 'fget'):
            return self.__class__.__dict__[item].fget(self)
    if item in UPNPTV.__dict__:
        if hasattr(UPNPTV.__dict__[item], 'fget'):
            return UPNPTV.__dict__[item].fget(self)
    if item in UPNPObject.__dict__:
        if hasattr(UPNPObject.__dict__[item], 'fget'):
            return UPNPObject.__dict__[item].fget(self)
    raise AttributeError(item)
```

A class `__dict__` entry is `some (some v)` when the name is bound to a
property (has `fget`, which when called yields `v`), `some none` when
the name is bound but not to a property — the code then falls through
to the next level — and `none` when the name is unbound at that level.
The class levels are most-derived first: `self.__class__`, then
`UPNPTV`, then `UPNPObject`. -/

structure AttrEnv (α : Type) where
  instDict : String → Option α
  devices : String → Option α
  services : String → Option α
  clsDict : String → Option (Option α)
  upnptvDict : String → Option (Option α)
  upnpObjDict : String → Option (Option α)

def dunder_getattr {α : Type} (env : AttrEnv α) (item : String) : Option α :=
  match env.instDict item with
  | Option.some v => Option.some v
  | Option.none =>
  match env.devices item with
  | Option.some v => Option.some v
  | Option.none =>
  match env.services item with
  | Option.some v => Option.some v
  | Option.none =>
  match env.clsDict item with
  | Option.some (Option.some v) => Option.some v
  | _ =>
  match env.upnptvDict item with
  | Option.some (Option.some v) => Option.some v
  | _ =>
  match env.upnpObjDict item with
  | Option.some (Option.some v) => Option.some v
  | _ => Option.none

/-! ## Legacy connection lifecycle (`RemoteLegacy.close` / `loop`)

State: `sock` is `self.sock is not None`, `thread` is
`self._thread is not None`, `loopEvent` is `self._loop_event.isSet()`.

`close` (lines 110–120) sets the loop event and, when a loop thread
exists, joins it.  The model assumes the cooperative exit is observed
during the bounded join: the loop's `while not self._loop_event.isSet()`
test fails, the thread runs its epilogue
`self._thread = None; self._loop_event.clear()` (lines 69–70) and
terminates.  After the join, `close` closes and clears the socket.
Note that `close` itself never assigns `self._thread`, and that the
thread's epilogue clears the loop event — so a *second* `close` call
re-sets the event and leaves it set, since no thread remains to clear
it. -/

structure LegacyState where
  sock : Bool
  thread : Bool
  loopEvent : Bool
  deriving DecidableEq, Repr

def legacy_close (s : LegacyState) : LegacyState :=
  let s1 : LegacyState := { s with loopEvent := true }
  let s2 : LegacyState :=
    if s1.thread then { s1 with thread := false, loopEvent := false } else s1
  if s2.sock then { s2 with sock := false } else s2

/-- A legacy remote with an established connection: socket open, loop
thread running, stop event clear. -/
def legacyOpenState : LegacyState :=
  { sock := true, thread := true, loopEvent := false }

/-! ## WebSocket base lifecycle (`websocket_base.py`)

`close` (lines 56–65) does nothing at all when `self.sock is None`;
otherwise it sets the loop event, closes the socket, joins the thread
(whose epilogue, lines 93–95, is `self.sock = None`,
`self._loop_event.clear()`, `self._thread = None`) and raises
`RuntimeError` if the thread reference is still set after the join. -/

structure WSState where
  sock : Bool
  thread : Bool
  loopEvent : Bool
  deriving DecidableEq, Repr

def ws_close (s : WSState) : Except PyErr WSState :=
  if s.sock then
    let s1 : WSState := { s with loopEvent := true }
    let s2 : WSState :=
      if s1.thread then
        { s1 with sock := false, thread := false, loopEvent := false }
      else s1
    if s2.thread then .error .runtimeError else .ok s2
  else .ok s

/-! ## Connection supervisor transition system (C8)

An interleaving small-step model of one legacy `Remote` instance:
one caller thread (per the spec's concurrency model, §5) plus the
background receive-loop thread.

* `threads` — number of live receive-loop threads;
* `threadRef` — `self._thread is not None`;
* `callerOpen` — the caller thread is inside `open()` (between entry
  and return), i.e. an in-flight open/handshake sequence on the caller;
* `loopOpen` — the loop thread is inside its reconnect `open()` call
  (`loop`, lines 60–67);
* `loopEvent`, `sock` — as above.

`open()` spawns a thread only under `if self._thread is None`
(lines 104–106); the reconnect path runs inside the existing loop
thread, whose reference is still set, so the guard fails there.
Nothing, however, serializes a caller `open()` against the loop
thread's reconnect `open()` — `RemoteLegacy` has no `auth_lock`. -/

structure SupState where
  threads : Nat
  threadRef : Bool
  callerOpen : Bool
  loopOpen : Bool
  loopEvent : Bool
  sock : Bool
  deriving DecidableEq, Repr

def supInit : SupState :=
  { threads := 0, threadRef := false, callerOpen := false,
    loopOpen := false, loopEvent := false, sock := false }

inductive SupStep : SupState → SupState → Prop where
  /-- The (single) caller thread enters `open()`. -/
  | caller_open_start (s : SupState) (h : s.callerOpen = false) :
      SupStep s { s with callerOpen := true }
  /-- The caller's `open()` completes: socket connected, handshake read,
  and a loop thread spawned iff `self._thread is None`. -/
  | caller_open_finish (s : SupState) (h : s.callerOpen = true) :
      SupStep s { s with
                  callerOpen := false, sock := true,
                  threads := if s.threadRef then s.threads else s.threads + 1,
                  threadRef := true }
  /-- The loop thread hits `socket.error`: clears the socket and enters
  the reconnect sequence (its own `open()` retry loop). -/
  | loop_error (s : SupState) (h1 : 1 ≤ s.threads) (h2 : s.loopOpen = false) :
      SupStep s { s with sock := false, loopOpen := true }
  /-- The loop thread's reconnect `open()` completes; the spawn guard
  `if self._thread is None` sees the still-set reference. -/
  | loop_open_finish (s : SupState) (h : s.loopOpen = true) :
      SupStep s { s with
                  loopOpen := false, sock := true,
                  threads := if s.threadRef then s.threads else s.threads + 1,
                  threadRef := true }
  /-- The loop thread observes the stop event at loop-top and exits,
  running its epilogue `self._thread = None; self._loop_event.clear()`. -/
  | thread_exit (s : SupState) (h1 : 1 ≤ s.threads) (h2 : s.loopOpen = false)
      (h3 : s.loopEvent = true) :
      SupStep s { s with
                  threads := s.threads - 1, threadRef := false,
                  loopEvent := false }
  /-- The caller calls `close()`: sets the stop event and clears the
  socket. -/
  | caller_close (s : SupState) :
      SupStep s { s with loopEvent := true, sock := false }

def SupReachable (s : SupState) : Prop :=
  Relation.ReflTransGen SupStep supInit s

/-! ## `WebSocketBase.power` probe

```python
try:
    requests.get('http://{0}:8001/api/v2/'.format(self.config.host), timeout=2)
    return True
except (requests.HTTPError, requests.exceptions.ConnectTimeout,
        requests.exceptions.ConnectionError):
    return False
```

`requests.get` either completes with a `Response` carrying *some* HTTP
status code (it raises no exception for error statuses; only
`Response.raise_for_status`, which is not called, would) or raises a
transport-level exception: `ConnectionError`, `ConnectTimeout`, or —
since `timeout=2` also bounds the read — `ReadTimeout`, which the
`except` clause does *not* list and which therefore propagates. -/

inductive GetOutcome where
  | success (statusCode : Nat)
  | connectionError
  | connectTimeout
  | readTimeout
  deriving DecidableEq, Repr

def ws_power (o : GetOutcome) : Except PyErr Bool :=
  match o with
  | .success _ => .ok true
  | .connectionError => .ok false
  | .connectTimeout => .ok false
  | .readTimeout => .error .runtimeError

/-! # Theorems -/

/-! ## Frame-parsing helper lemmas -/

theorem beVal_pair (a b : Nat) : beVal [a, b] = a * 256 + b := by
  simp [beVal]

/-- Reading one well-formed frame: the reader consumes exactly the
frame and dispatches on its response field, leaving the rest of the
stream untouched. -/
theorem read_response_frame (paired : Bool) (fuel : Nat)
    (name resp tail : List Nat)
    (hn : name.length < 65536) (hr : resp.length < 65536) :
    read_response paired (fuel + 1) (mk_frame name resp ++ tail) =
      if resp.length = 0 then Option.some (.closed, paired, tail)
      else if resp = [0x64, 0x00, 0x01, 0x00] then
        Option.some (.granted, true, tail)
      else if resp = [0x64, 0x00, 0x00, 0x00] then
        Option.some (.denied, paired, tail)
      else if resp.take 1 = [0x0a] then read_response paired fuel tail
      else if resp.take 1 = [0x65] then Option.some (.cancelled, paired, tail)
      else if resp = [0x00, 0x00, 0x00, 0x00] then
        Option.some (.accepted, paired, tail)
      else Option.some (.unhandled resp, paired, tail) := by
  have hshape : mk_frame name resp ++ tail =
      0 :: (name.length / 256) :: (name.length % 256) ::
        (name ++ ((resp.length / 256) :: (resp.length % 256) ::
          (resp ++ tail))) := by
    simp [mk_frame, be2]
  rw [hshape]
  conv_lhs => unfold read_response
  simp only [List.take_succ_cons, List.take_zero, List.drop_succ_cons,
    List.drop_zero]
  have h1 : beVal [name.length / 256, name.length % 256] = name.length := by
    rw [beVal_pair]; omega
  rw [h1, List.drop_left]
  simp only [List.take_succ_cons, List.take_zero, List.drop_succ_cons,
    List.drop_zero]
  have h2 : beVal [resp.length / 256, resp.length % 256] = resp.length := by
    rw [beVal_pair]; omega
  rw [h2, List.take_left, List.drop_left]

/-! ## C3 — legacy handshake outcomes -/


/-- C3.  Receiving the exact response bytes `64 00 01 00` makes the
legacy reader set the configuration pairing flag to `true` and return
normally (outcome `granted`); receiving `64 00 00 00` makes it raise
`AccessDenied` (outcome `denied`) with the pairing flag left at
`false`. -/
theorem legacy_handshake_outcomes (paired : Bool) (name : List Nat)
    (hn : name.length < 65536) :
    read_response paired 1 (mk_frame name [0x64, 0x00, 0x01, 0x00]) =
      Option.some (.granted, true, []) ∧
    read_response false 1 (mk_frame name [0x64, 0x00, 0x00, 0x00]) =
      Option.some (.denied, false, []) := by
  constructor
  · have h := read_response_frame paired 0 name [0x64, 0x00, 0x01, 0x00] []
      hn (by simp)
    simpa using h
  · have h := read_response_frame false 0 name [0x64, 0x00, 0x00, 0x00] []
      hn (by simp)
    simpa using h

/-- C3 witness: a concrete 2-byte TV name. -/
theorem legacy_handshake_outcomes_witness :
    read_response false 1 (mk_frame [84, 86] [0x64, 0x00, 0x01, 0x00]) =
      Option.some (.granted, true, []) :=
  (legacy_handshake_outcomes false [84, 86] (by decide)).1

/-! ## C7 — zero-length response means the peer closed -/

/-- C7.  A frame whose response field is empty is treated as the peer
closing the connection: the reader raises `ConnectionClosed` (outcome
`closed`), for any prior pairing state. -/
theorem legacy_zero_length_response_closed (paired : Bool) (name : List Nat)
    (hn : name.length < 65536) :
    read_response paired 1 (mk_frame name []) =
      Option.some (.closed, paired, []) := by
  have h := read_response_frame paired 0 name [] [] hn (by simp)
  simpa using h

/-- C7 witness: concrete TV name, both pairing states. -/
theorem legacy_zero_length_response_closed_witness :
    read_response true 1 (mk_frame [84, 86] []) =
      Option.some (.closed, true, []) :=
  legacy_zero_length_response_closed true [84, 86] (by decide)

/-! ## C9 — single-byte length construction in `_serialize_string` -/

/-- C9.  `_serialize_string` succeeds exactly when the payload (the
input itself in raw mode, its base64 encoding otherwise) is at most 255
bytes, in which case the result is one length byte, one zero byte, then
the payload; every frame it can produce carries a payload of at most
255 bytes. -/
theorem serialize_string_length (s : List Nat) (raw : Bool) :
    ((if raw then s else b64encode s).length ≤ 255 →
      serialize_string s raw =
        Option.some ((if raw then s else b64encode s).length :: 0 ::
          (if raw then s else b64encode s))) ∧
    (255 < (if raw then s else b64encode s).length →
      serialize_string s raw = Option.none) ∧
    (∀ r, serialize_string s raw = Option.some r →
      (r.drop 2).length ≤ 255 ∧ r = (r.drop 2).length :: 0 :: r.drop 2) := by
  refine ⟨fun h => ?_, fun h => ?_, fun r hr => ?_⟩
  · simp [serialize_string, h]
  · simp [serialize_string]; omega
  · unfold serialize_string at hr
    by_cases h : (if raw then s else b64encode s).length ≤ 255
    · simp [h] at hr
      subst hr
      simp [h]
    · simp [h] at hr

/-- C9 witness: a 3-byte raw payload and an over-long raw payload. -/
theorem serialize_string_length_witness :
    serialize_string [1, 2, 3] true = Option.some [3, 0, 1, 2, 3] :=
  (serialize_string_length [1, 2, 3] true).1 (by decide)

/-! ## C10 — WebSocket power probe -/

/-- C10.  The power probe returns `True` exactly when the HTTP GET
completes (with any status code: `requests.get` raises nothing for
error statuses), and `False` exactly when the GET raises
`ConnectionError` or `ConnectTimeout`; a read timeout is not caught
and propagates. -/
theorem ws_power_probe (o : GetOutcome) :
    (ws_power o = .ok true ↔ ∃ code, o = .success code) ∧
    (ws_power o = .ok false ↔
      (o = .connectionError ∨ o = .connectTimeout)) := by
  cases o <;> simp [ws_power]

/-! ## C5 — `__getattr__` resolution order -/

/-- C5.  `UPNPTV.__getattr__` resolves a name in exactly this order:
instance dictionary, then discovered child devices, then discovered
services, then class-hierarchy properties most-derived first
(`self.__class__`, `UPNPTV`, `UPNPObject`); a name found at an earlier
level is returned no matter what the later levels hold (the later
levels are universally quantified), so it is never shadowed. -/
theorem getattr_resolution_order {α : Type} (env : AttrEnv α) (item : String) :
    (∀ v, env.instDict item = Option.some v →
      dunder_getattr env item = Option.some v) ∧
    (∀ v, env.instDict item = Option.none →
      env.devices item = Option.some v →
      dunder_getattr env item = Option.some v) ∧
    (∀ v, env.instDict item = Option.none →
      env.devices item = Option.none →
      env.services item = Option.some v →
      dunder_getattr env item = Option.some v) ∧
    (∀ v, env.instDict item = Option.none →
      env.devices item = Option.none →
      env.services item = Option.none →
      env.clsDict item = Option.some (Option.some v) →
      dunder_getattr env item = Option.some v) ∧
    (∀ v, env.instDict item = Option.none →
      env.devices item = Option.none →
      env.services item = Option.none →
      (env.clsDict item = Option.none ∨
        env.clsDict item = Option.some Option.none) →
      env.upnptvDict item = Option.some (Option.some v) →
      dunder_getattr env item = Option.some v) ∧
    (∀ v, env.instDict item = Option.none →
      env.devices item = Option.none →
      env.services item = Option.none →
      (env.clsDict item = Option.none ∨
        env.clsDict item = Option.some Option.none) →
      (env.upnptvDict item = Option.none ∨
        env.upnptvDict item = Option.some Option.none) →
      env.upnpObjDict item = Option.some (Option.some v) →
      dunder_getattr env item = Option.some v) ∧
    (env.instDict item = Option.none →
      env.devices item = Option.none →
      env.services item = Option.none →
      (env.clsDict item = Option.none ∨
        env.clsDict item = Option.some Option.none) →
      (env.upnptvDict item = Option.none ∨
        env.upnptvDict item = Option.some Option.none) →
      (env.upnpObjDict item = Option.none ∨
        env.upnpObjDict item = Option.some Option.none) →
      dunder_getattr env item = Option.none) := by
  refine ⟨?_, ?_, ?_, ?_, ?_, ?_, ?_⟩
  · intro v h; simp [dunder_getattr, h]
  · intro v h1 h2; simp [dunder_getattr, h1, h2]
  · intro v h1 h2 h3; simp [dunder_getattr, h1, h2, h3]
  · intro v h1 h2 h3 h4; simp [dunder_getattr, h1, h2, h3, h4]
  · intro v h1 h2 h3 h4 h5
    rcases h4 with h4 | h4 <;> simp [dunder_getattr, h1, h2, h3, h4, h5]
  · intro v h1 h2 h3 h4 h5 h6
    rcases h4 with h4 | h4 <;> rcases h5 with h5 | h5 <;>
      simp [dunder_getattr, h1, h2, h3, h4, h5, h6]
  · intro h1 h2 h3 h4 h5 h6
    rcases h4 with h4 | h4 <;> rcases h5 with h5 | h5 <;>
      rcases h6 with h6 | h6 <;>
      simp [dunder_getattr, h1, h2, h3, h4, h5, h6]

/-- C5 witness: a concrete environment where the same name is bound at
every level; the instance-dictionary value wins. -/
theorem getattr_resolution_order_witness :
    dunder_getattr
      { instDict := fun _ => Option.some 1, devices := fun _ => Option.some 2,
        services := fun _ => Option.some 3,
        clsDict := fun _ => Option.some (Option.some 4),
        upnptvDict := fun _ => Option.some (Option.some 5),
        upnpObjDict := fun _ => Option.some (Option.some 6) }
      "RenderingControl" = Option.some 1 :=
  (getattr_resolution_order _ "RenderingControl").1 1 rfl

/-! ## C1 — capability absence and facade defaults -/

/-- C1 counterexample: the `brightness` getter on a TV with no
discovered services does **not** return a default — its
`except AttributeError: raise` re-raises, so the caller sees
`AttributeError` instead of the documented `None`. -/
theorem brightness_absent_raises :
    brightness_get emptyDirectory = .error .attributeError := rfl

/-- C1 (amended).  On a directory missing the backing services, every
embedded facade operation except the `brightness` getter returns its
documented default (`None`, or a same-arity tuple of `None`s) and
raises no error; the `brightness` getter alone re-raises the
`AttributeError`. -/
theorem facade_capability_absence (d : CapabilityDirectory)
    (hrc : ∀ a, d "RenderingControl" a = Option.none)
    (hmt : ∀ a, d "MainTVAgent2" a = Option.none)
    (hav : ∀ a, d "AVTransport" a = Option.none)
    (hcm : ∀ a, d "ConnectionManager" a = Option.none) :
    caption_state d = .ok (.tuple [.none, .none]) ∧
    byte_position_info d = .ok (.tuple [.none, .none, .none]) ∧
    get_audio_selection d = .ok (.tuple [.none, .none]) ∧
    set_audio_selection d = .ok .none ∧
    get_channel_mute d = .ok .none ∧
    set_channel_mute d = .ok .none ∧
    get_channel_volume d = .ok .none ∧
    banner_information d = .ok .none ∧
    current_time d = .ok .none ∧
    contrast_get d = .ok .none ∧
    color_temperature_get d = .ok .none ∧
    current_connection_info d =
      .ok (.tuple [.none, .none, .none, .none, .none, .none, .none]) ∧
    mute_get d = .ok .none ∧
    volume_get d = .ok .none ∧
    (∀ v, brightness_set d v = .ok .none) ∧
    brightness_get d = .error .attributeError := by
  refine ⟨?_, ?_, ?_, ?_, ?_, ?_, ?_, ?_, ?_, ?_, ?_, ?_, ?_, ?_, ?_, ?_⟩ <;>
    simp [caption_state, byte_position_info, get_audio_selection,
      set_audio_selection, get_channel_mute, set_channel_mute,
      get_channel_volume, banner_information, current_time, contrast_get,
      color_temperature_get, current_connection_info, mute_get, volume_get,
      brightness_set, brightness_get, callAction, tryAttr, hrc, hmt, hav, hcm,
      Bind.bind, Except.bind, Functor.map, Except.map]

/-- C1 witness: the all-absent directory, evaluated on `caption_state`
(the accessor the claim cites): it degrades to `(None, None)`. -/
theorem facade_capability_absence_witness :
    caption_state emptyDirectory = .ok (.tuple [.none, .none]) :=
  (facade_capability_absence emptyDirectory (fun _ => rfl) (fun _ => rfl)
    (fun _ => rfl) (fun _ => rfl)).1

/-! ## C2 — channel selection by tuple -/

/-- C2.  Setting `channel` to the tuple `(4, 1)` against a channel list
that contains the channel with major `4` and minor `1` does **not**
match it: `Channel` defines no `__eq__`, so the comparison is identity
and is `False` for a tuple; the `for/else` then raises
`ValueError('Channel not found ...')`, which the surrounding
`except AttributeError` does not catch.  `activate()` is never called
on any entry. -/
theorem channel_set_tuple_not_found :
    channel_set_tuple [{ major := "4", minor := "1" }] (4, 1) =
      .error .valueError ∧
    channelEqIntTuple { major := "4", minor := "1" } (4, 1) = false := by
  exact ⟨rfl, rfl⟩

/-! ## C6 — close semantics -/

/-- C6 counterexample: on the legacy remote, a second `close()` is not
state-free — the first close leaves the stop event cleared (the exiting
loop thread clears it), and the second close re-sets it. -/
theorem legacy_second_close_changes_state :
    legacy_close (legacy_close legacyOpenState) ≠
      legacy_close legacyOpenState := by decide

/-- C6 (amended).  Closing an open legacy connection clears the
background-thread reference and the socket (assuming the loop thread
observes the stop event during the bounded join); a second `close()`
raises no error (the modelled `close` is total) and leaves the socket
and thread references unchanged, but it re-sets the internal stop
event, which the exiting loop thread had cleared — so it is not a
complete no-op.  On the WebSocket base, `close()` on an open connection
clears the thread reference, and a second `close()` is a genuine no-op
because the whole body is guarded by `self.sock is not None`. -/
theorem close_semantics :
    legacy_close legacyOpenState =
      { sock := false, thread := false, loopEvent := false } ∧
    legacy_close (legacy_close legacyOpenState) =
      { sock := false, thread := false, loopEvent := true } ∧
    ws_close { sock := true, thread := true, loopEvent := false } =
      .ok { sock := false, thread := false, loopEvent := false } ∧
    ws_close { sock := false, thread := false, loopEvent := false } =
      .ok { sock := false, thread := false, loopEvent := false } := by
  refine ⟨by decide, by decide, rfl, rfl⟩

/-! ## C8 — supervisor thread and open/auth uniqueness -/

/-- Inductive invariant of the legacy supervisor transition system:
at most one live loop thread, the thread reference tracks it exactly,
and the loop thread can only be inside its reconnect `open()` while it
is alive. -/
def SupInv (s : SupState) : Prop :=
  s.threads ≤ 1 ∧ (s.threadRef = true ↔ s.threads = 1) ∧
    (s.loopOpen = true → s.threads = 1)

theorem supStep_preserves_inv {s t : SupState} (h : SupStep s t)
    (hs : SupInv s) : SupInv t := by
  obtain ⟨h1, h2, h3⟩ := hs
  cases h with
  | caller_open_start h => exact ⟨h1, h2, h3⟩
  | caller_open_finish h =>
      by_cases hr : s.threadRef = true
      · refine ⟨by simpa [hr] using h1, ?_, fun hl => by simpa [hr] using h3 hl⟩
        simp only [hr]
        simpa [hr] using h2
      · have hz : s.threads = 0 := by
          rcases Nat.le_one_iff_eq_zero_or_eq_one.mp h1 with h | h
          · exact h
          · exact absurd (h2.mpr h) hr
        refine ⟨by simp [hr, hz], by simp [hr, hz], fun hl => ?_⟩
        exact absurd (h3 hl) (by omega)
  | loop_error hth hlo =>
      exact ⟨h1, h2, fun _ => show s.threads = 1 by omega⟩
  | loop_open_finish hl =>
      have hone : s.threads = 1 := h3 hl
      have hr : s.threadRef = true := h2.mpr hone
      refine ⟨by simp [hr, hone], by simp [hr, hone], by simp [hr, hone]⟩
  | thread_exit hth hlo he =>
      refine ⟨show s.threads - 1 ≤ 1 by omega, ?_,
        fun hl => absurd hl (by simp [hlo])⟩
      constructor
      · intro hx; exact (Bool.false_ne_true hx).elim
      · intro hx
        have hx' : s.threads - 1 = 1 := hx
        exact absurd hx' (by omega)
  | caller_close => exact ⟨h1, h2, h3⟩

theorem supReachable_inv {s : SupState} (h : SupReachable s) : SupInv s := by
  induction h with
  | refl => exact ⟨by decide, by decide, by decide⟩
  | tail _ hstep ih => exact supStep_preserves_inv hstep ih

/-- C8 counterexample: a reachable state in which the caller thread and
the loop thread are **simultaneously** inside `open()` — the caller
calls `open()` while the loop thread is in its reconnect sequence;
`RemoteLegacy` holds no lock around open/handshake.  So "at most one
in-flight open/authenticate sequence at any time" fails. -/
theorem concurrent_opens_reachable :
    SupReachable { threads := 1, threadRef := true, callerOpen := true,
                   loopOpen := true, loopEvent := false, sock := false } ∧
    (SupState.callerOpen { threads := 1, threadRef := true,
                           callerOpen := true, loopOpen := true,
                           loopEvent := false, sock := false } = true ∧
     SupState.loopOpen { threads := 1, threadRef := true,
                         callerOpen := true, loopOpen := true,
                         loopEvent := false, sock := false } = true) := by
  refine ⟨?_, rfl, rfl⟩
  have t1 : SupStep supInit { supInit with callerOpen := true } :=
    .caller_open_start supInit rfl
  have t2 : SupStep { supInit with callerOpen := true }
      { threads := 1, threadRef := true, callerOpen := false,
        loopOpen := false, loopEvent := false, sock := true } :=
    .caller_open_finish { supInit with callerOpen := true } rfl
  have t3 : SupStep
      { threads := 1, threadRef := true, callerOpen := false,
        loopOpen := false, loopEvent := false, sock := true }
      { threads := 1, threadRef := true, callerOpen := false,
        loopOpen := true, loopEvent := false, sock := false } :=
    .loop_error _ (by decide) rfl
  have t4 : SupStep
      { threads := 1, threadRef := true, callerOpen := false,
        loopOpen := true, loopEvent := false, sock := false }
      { threads := 1, threadRef := true, callerOpen := true,
        loopOpen := true, loopEvent := false, sock := false } :=
    .caller_open_start _ rfl
  exact Relation.ReflTransGen.tail
    (Relation.ReflTransGen.tail
      (Relation.ReflTransGen.tail
        (Relation.ReflTransGen.tail Relation.ReflTransGen.refl t1) t2) t3) t4

/-- C8 (amended).  In the interleaving model of one legacy `Remote`
(single caller thread plus the background loop), every reachable state
has at most one live receive-loop thread — in particular a reconnect
cycle never spawns a second one, because the spawn in `open()` is
guarded by `if self._thread is None` and the loop thread's reference is
still set during reconnect.  The open/auth half of the original claim
fails: see the counterexample above. -/
theorem supervisor_at_most_one_thread (s : SupState) (h : SupReachable s) :
    s.threads ≤ 1 :=
  (supReachable_inv h).1

/-- C8 witness: the initial state is reachable and has no thread. -/
theorem supervisor_at_most_one_thread_witness :
    supInit.threads ≤ 1 :=
  supervisor_at_most_one_thread supInit Relation.ReflTransGen.refl

/-! ## C4 — control-command encode/decode round trip -/

theorem b64ord_b64chr : ∀ n < 64, b64ord (b64chr n) = n := by decide

theorem b64chr_ne_pad : ∀ n < 64, b64chr n ≠ 61 := by decide

/-- Python `base64.b64decode ∘ base64.b64encode` is the identity on
byte strings. -/
theorem b64_roundtrip :
    ∀ (s : List Nat), (∀ x ∈ s, x < 256) → b64decode (b64encode s) = s
  | [], _ => rfl
  | [a], h => by
      have ha : a < 256 := h a (by simp)
      have e0 := b64ord_b64chr (a / 4) (by omega)
      have e1 := b64ord_b64chr (a % 4 * 16) (by omega)
      simp only [b64encode, b64decode, if_true, eq_self_iff_true, e0, e1]
      rw [List.cons.injEq]
      exact ⟨by omega, rfl⟩
  | [a, b], h => by
      have ha : a < 256 := h a (by simp)
      have hb : b < 256 := h b (by simp)
      have e0 := b64ord_b64chr (a / 4) (by omega)
      have e1 := b64ord_b64chr (a % 4 * 16 + b / 16) (by omega)
      have e2 := b64ord_b64chr (b % 16 * 4) (by omega)
      have ne2 := b64chr_ne_pad (b % 16 * 4) (by omega)
      simp only [b64encode, b64decode, ne2, if_false, if_true,
        eq_self_iff_true, e0, e1, e2]
      rw [List.cons.injEq, List.cons.injEq]
      exact ⟨by omega, by omega, rfl⟩
  | [a, b, c], h => by
      have ha : a < 256 := h a (by simp)
      have hb : b < 256 := h b (by simp)
      have hc : c < 256 := h c (by simp)
      have e0 := b64ord_b64chr (a / 4) (by omega)
      have e1 := b64ord_b64chr (a % 4 * 16 + b / 16) (by omega)
      have e2 := b64ord_b64chr (b % 16 * 4 + c / 64) (by omega)
      have e3 := b64ord_b64chr (c % 64) (by omega)
      have ne2 := b64chr_ne_pad (b % 16 * 4 + c / 64) (by omega)
      have ne3 := b64chr_ne_pad (c % 64) (by omega)
      simp only [b64encode, b64decode, ne2, ne3, if_false, if_true,
        eq_self_iff_true, e0, e1, e2, e3]
      rw [List.cons.injEq, List.cons.injEq, List.cons.injEq]
      exact ⟨by omega, by omega, by omega, rfl⟩
  | a :: b :: c :: d :: tl, h => by
      have ha : a < 256 := h a (by simp)
      have hb : b < 256 := h b (by simp)
      have hc : c < 256 := h c (by simp)
      have e0 := b64ord_b64chr (a / 4) (by omega)
      have e1 := b64ord_b64chr (a % 4 * 16 + b / 16) (by omega)
      have e2 := b64ord_b64chr (b % 16 * 4 + c / 64) (by omega)
      have e3 := b64ord_b64chr (c % 64) (by omega)
      have ne2 := b64chr_ne_pad (b % 16 * 4 + c / 64) (by omega)
      have ne3 := b64chr_ne_pad (c % 64) (by omega)
      have ih := b64_roundtrip (d :: tl) (fun x hx => h x (by simp [hx]))
      simp only [b64encode, b64decode, ne2, ne3, if_false, if_true,
        eq_self_iff_true, e0, e1, e2, e3, ih]
      rw [List.cons.injEq, List.cons.injEq, List.cons.injEq]
      exact ⟨by omega, by omega, by omega, rfl⟩

/-- C4.  Encoding a control command for a key (three zero bytes plus
the base64-wrapped, length-prefixed key, wrapped once more for the
wire) and then decoding a synthetic device echo of that frame — a
well-formed inbound frame whose response field carries the command
payload — yields the original key bytes: the reader delivers the raw
response unchanged (as the `UnhandledResponse` payload, since a key
echo matches no handshake sentinel), and stripping the three zero
bytes and the length prefix and base64-decoding recovers the key.
The hypotheses say the key is made of bytes and its base64 text plus
framing fits the single length byte. -/
theorem control_roundtrip (key : List Nat) (hbytes : ∀ x ∈ key, x < 256)
    (hlen : (b64encode key).length + 5 ≤ 255) (name : List Nat)
    (hn : name.length < 65536) (paired : Bool) :
    control_payload key =
      Option.some (0 :: 0 :: 0 :: (b64encode key).length :: 0 ::
        b64encode key) ∧
    control_packet key =
      Option.some (0 :: 0 :: 0 :: ((b64encode key).length + 5) :: 0 ::
        0 :: 0 :: 0 :: (b64encode key).length :: 0 :: b64encode key) ∧
    read_response paired 1
      (mk_frame name
        (0 :: 0 :: 0 :: (b64encode key).length :: 0 :: b64encode key)) =
      Option.some
        (.unhandled (0 :: 0 :: 0 :: (b64encode key).length :: 0 ::
          b64encode key), paired, []) ∧
    deserialize_key
      (0 :: 0 :: 0 :: (b64encode key).length :: 0 :: b64encode key) =
      Option.some key := by
  have hser : serialize_string key false =
      Option.some ((b64encode key).length :: 0 :: b64encode key) := by
    simp [serialize_string, show (b64encode key).length ≤ 255 by omega]
  have hpay : control_payload key =
      Option.some (0 :: 0 :: 0 :: (b64encode key).length :: 0 ::
        b64encode key) := by
    simp [control_payload, hser]
  have hplen :
      (0 :: 0 :: 0 :: (b64encode key).length :: 0 :: b64encode key).length =
        (b64encode key).length + 5 := by
    simp
  have houter : serialize_string
      (0 :: 0 :: 0 :: (b64encode key).length :: 0 :: b64encode key) true =
      Option.some (((b64encode key).length + 5) :: 0 ::
        (0 :: 0 :: 0 :: (b64encode key).length :: 0 :: b64encode key)) := by
    rw [serialize_string]
    simp only [if_true, hplen]
    rw [if_pos (by omega)]
  have hpacket : control_packet key =
      Option.some (0 :: 0 :: 0 :: ((b64encode key).length + 5) :: 0 ::
        0 :: 0 :: 0 :: (b64encode key).length :: 0 :: b64encode key) := by
    simp [control_packet, hpay, houter]
  refine ⟨hpay, hpacket, ?_, ?_⟩
  · have hfr := read_response_frame paired 0 name
      (0 :: 0 :: 0 :: (b64encode key).length :: 0 :: b64encode key) []
      hn (by omega)
    rw [List.append_nil] at hfr
    rw [hfr]
    have hz : (0 : Nat) :: 0 :: 0 :: (b64encode key).length :: 0 ::
        b64encode key ≠ [0, 0, 0, 0] := by
      intro he
      have := congrArg List.length he
      simp at this
    simp [hz]
  · rw [deserialize_key]
    simp [b64_roundtrip key hbytes]

/-- C4 witness: the key `KEY_MENU` with a 2-byte TV name; the round
trip through `control_payload` / frame echo / `deserialize_key`
reproduces the key bytes. -/
theorem control_roundtrip_witness :
    deserialize_key
      (0 :: 0 :: 0 ::
        (b64encode [75, 69, 89, 95, 77, 69, 78, 85]).length :: 0 ::
        b64encode [75, 69, 89, 95, 77, 69, 78, 85]) =
      Option.some [75, 69, 89, 95, 77, 69, 78, 85] :=
  (control_roundtrip [75, 69, 89, 95, 77, 69, 78, 85] (by decide) (by decide)
    [84, 86] (by decide) false).2.2.2

end Samsungctl
